import Mathlib

/-!
# Verification of the easy_maa privileged-execution and status/log subsystem

Shallow embedding of `src-tauri/src/lib.rs` (and the `CommandConfig` data
type of `src-tauri/src/config.rs`). External effects are made explicit:

* the operating system is an oracle `os : Invocation → SpawnResult`
  describing, for each attempted child process, either the captured
  `std::process::Output` or a spawn failure (`Command::output()` error);
* an `ExitStatus` is modelled as `Option Int`: `some c` is an exit code,
  `none` is termination without a code (killed by a signal);
  `ExitStatus::success()` is `statusSuccess`;
* the `spawn_blocking` worker either runs to completion or crashes; the
  crash is an explicit `Option String` input (`some e` = the join error);
* the observable effects of the controller functions (`update_status`,
  `push_log`, `spawn_notification` calls) are returned as an ordered
  transcript of `Event`s instead of being performed on shared state;
* wall-clock timestamps are passed in as explicit `now` arguments.

Rust names are kept wherever Lean allows.
-/

namespace EasyMaa

/-! ## String helpers (models of the Rust `str` operations used) -/

/-- `a` is a prefix of `b` (model of `str::starts_with` / the prefix test
inside `str::strip_prefix`). -/
def isPre : List Char → List Char → Bool
  | [], _ => true
  | _ :: _, [] => false
  | a :: as, b :: bs => a == b && isPre as bs

/-- Model of Rust `str::contains(needle)`: substring occurrence test. -/
def containsSub (needle : List Char) : List Char → Bool
  | [] => needle.isEmpty
  | c :: rest => isPre needle (c :: rest) || containsSub needle rest

/-- `hay.contains(needle)` on `String`s. -/
def strContains (hay needle : String) : Bool :=
  containsSub needle.data hay.data

/-- `s.starts_with(p)` on `String`s. -/
def strStarts (s p : String) : Bool :=
  isPre p.data s.data

/-- `s.ends_with(p)` on `String`s. -/
def strEnds (s p : String) : Bool :=
  isPre p.data.reverse s.data.reverse

/-- Model of Rust `str::strip_prefix`: `some` of the remainder when the
prefix is present, `none` otherwise. -/
def stripPre (p s : String) : Option String :=
  if isPre p.data s.data then some ⟨s.data.drop p.data.length⟩ else none

/-- Characterwise whitespace trim at both ends (model of `str::trim`). -/
def trimChars (l : List Char) : List Char :=
  ((l.dropWhile Char.isWhitespace).reverse.dropWhile Char.isWhitespace).reverse

/-- `s.trim().to_string()` on `String`s. -/
def strTrim (s : String) : String :=
  ⟨trimChars s.data⟩

/-- Model of `Vec::join(" ")`. -/
def joinSpace : List String → String
  | [] => ""
  | [s] => s
  | s :: rest => s ++ " " ++ joinSpace rest

/-! ## Data model -/

/-- Captured `std::process::Output`: exit status plus both streams.
The status is `some code` or `none` when the child was killed by a
signal (`ExitStatus::code() == None`). Stream bytes are modelled as
`String` (the code converts them with `String::from_utf8_lossy`). -/
structure Output where
  status : Option Int
  stdout : String
  stderr : String
deriving DecidableEq, Repr

/-- `ExitStatus::success()`: true exactly on exit code zero. -/
def statusSuccess (s : Option Int) : Bool :=
  s == some 0

/-- One attempted child-process invocation: program, argument list,
working directory and injected environment, as assembled by
`execute_command_internal`. -/
structure Invocation where
  program : String
  args : List String
  workingDir : Option String
  env : List (String × String)
deriving DecidableEq, Repr

/-- What the operating system does with one invocation: either the child
ran and its output was captured, or `Command::output()` failed
(binary missing, fork refused) with an error message. -/
inductive SpawnResult where
  | ok (out : Output)
  | spawnErr (msg : String)
deriving DecidableEq, Repr

/-- `CommandConfig` from `config.rs`: declarative description of one
external command. -/
structure CommandConfig where
  label : String
  program : String
  args : List String
  requires_sudo : Bool
  working_dir : Option String
  env : List (String × String)
deriving DecidableEq, Repr

/-- `CommandOutcome` from `lib.rs`: normalized result of one execution. -/
structure CommandOutcome where
  label : String
  command : String
  exit_code : Int
  success : Bool
  stdout : String
  stderr : String
deriving DecidableEq, Repr

/-- `LogLevel` from `lib.rs`. -/
inductive LogLevel where
  | Info
  | Warn
  | Error
deriving DecidableEq, Repr

/-- `LogEntry` from `lib.rs`. -/
structure LogEntry where
  timestamp_ms : Nat
  level : LogLevel
  message : String
deriving DecidableEq, Repr

/-- `SoftwareKind` from `lib.rs`. -/
inductive SoftwareKind where
  | Emulator
  | Maa
deriving DecidableEq, Repr

/-- `SoftwarePhase` from `lib.rs`. -/
inductive SoftwarePhase where
  | Unknown
  | Idle
  | Starting
  | Running
  | Stopping
  | Stopped
  | Error
deriving DecidableEq, Repr

/-- `SoftwareStatus` from `lib.rs`. -/
structure SoftwareStatus where
  kind : SoftwareKind
  phase : SoftwarePhase
  last_message : Option String
  last_updated_ms : Nat
deriving DecidableEq, Repr

/-- `SoftwareStatus::with_phase` (the wall clock is explicit). -/
def with_phase (now : Nat) (kind : SoftwareKind) (phase : SoftwarePhase) :
    SoftwareStatus :=
  { kind := kind, phase := phase, last_message := none, last_updated_ms := now }

/-- `ActionKind` from `lib.rs`. -/
inductive ActionKind where
  | EmulatorStart
  | EmulatorStop
  | MaaStartup
deriving DecidableEq, Repr

/-- `ActionKind::target`. -/
def ActionKind.target : ActionKind → SoftwareKind
  | .EmulatorStart | .EmulatorStop => .Emulator
  | .MaaStartup => .Maa

/-- `ActionKind::start_phase`. -/
def ActionKind.start_phase : ActionKind → SoftwarePhase
  | .EmulatorStart => .Starting
  | .EmulatorStop => .Stopping
  | .MaaStartup => .Running

/-- `ActionKind::success_phase`. -/
def ActionKind.success_phase : ActionKind → SoftwarePhase
  | .EmulatorStart => .Running
  | .EmulatorStop => .Stopped
  | .MaaStartup => .Idle

/-! ## Log buffer (`AppState.push_log`) -/

/-- `MAX_MEMORY_LOGS` from `lib.rs`. -/
def MAX_MEMORY_LOGS : Nat := 200

/-- The buffer mutation of `AppState::push_log` on the `VecDeque` (front
of the list = oldest entry): `push_back`, then `pop_front` once when the
length exceeds `MAX_MEMORY_LOGS`. -/
def push_log (logs : List LogEntry) (entry : LogEntry) : List LogEntry :=
  let logs' := logs ++ [entry]
  if logs'.length > MAX_MEMORY_LOGS then logs'.drop 1 else logs'

/-- State of the log buffer (started empty in `AppState::new`) after a
whole sequence of pushes. -/
def log_buffer (entries : List LogEntry) : List LogEntry :=
  entries.foldl push_log []

/-! ## Status table (`AppState.update_status`) -/

/-- The status map: `HashMap<SoftwareKind, SoftwareStatus>` modelled as a
partial function; `none` is absence of the entry. -/
def StatusMap : Type := SoftwareKind → Option SoftwareStatus

/-- `AppState::update_status`: `entry(kind).or_insert_with(Unknown)`,
then overwrite phase and `last_updated_ms`, overwrite `last_message`
only when a message is supplied; returns the new map and the post-update
snapshot (which the code also publishes on the status channel). -/
def update_status (now : Nat) (statuses : StatusMap) (kind : SoftwareKind)
    (phase : SoftwarePhase) (message : Option String) :
    StatusMap × SoftwareStatus :=
  let base := (statuses kind).getD (with_phase now kind .Unknown)
  let st : SoftwareStatus :=
    { base with
      phase := phase
      last_updated_ms := now
      last_message := match message with
        | some msg => some msg
        | none => base.last_message }
  (fun k => if k = kind then some st else statuses k, st)

/-! ## Executor (`run_configured_command` and helpers) -/

/-- `execute_command_internal`: run one command through the OS oracle; a
spawn failure is converted into a synthetic output whose status is the
exit status of the `false` utility (exit code 1), with empty stdout and
a descriptive stderr (`unwrap_or_else` branch in the source). -/
def execute_command_internal (os : Invocation → SpawnResult)
    (inv : Invocation) : Output :=
  match os inv with
  | .ok out => out
  | .spawnErr msg =>
    { status := some 1
      stdout := ""
      stderr := "Failed to execute command: " ++ msg }

/-- The command preview string built in both `run_configured_command`
(`command_display`) and `execute_simple_action` (`command_preview`):
the program alone, or the program and the space-joined args. -/
def commandDisplay (spec : CommandConfig) : String :=
  if spec.args.isEmpty then spec.program
  else spec.program ++ " " ++ joinSpace spec.args

/-- The closure run inside `spawn_blocking` by `run_configured_command`:
direct execution, or the two-stage `sudo -n` → `pkexec` escalation.
Besides the captured output it returns the ordered list of invocations
attempted, so that theorems can count child launches. -/
def run_worker (isRoot : Bool) (os : Invocation → SpawnResult)
    (program : String) (args : List String) (workingDir : Option String)
    (envVars : List (String × String)) (requiresSudo : Bool) :
    Output × List Invocation :=
  if requiresSudo && !isRoot then
    let sudoInv : Invocation :=
      { program := "sudo", args := "-n" :: program :: args
        workingDir := workingDir, env := envVars }
    let result := execute_command_internal os sudoInv
    if !statusSuccess result.status &&
        (strContains result.stderr "password" ||
         strContains result.stderr "a password is required") then
      let pkexecInv : Invocation :=
        { program := "pkexec", args := program :: args
          workingDir := workingDir, env := envVars }
      (execute_command_internal os pkexecInv, [sudoInv, pkexecInv])
    else
      (result, [sudoInv])
  else
    let inv : Invocation :=
      { program := program, args := args
        workingDir := workingDir, env := envVars }
    (execute_command_internal os inv, [inv])

/-- `expand_path`: replace a leading `~/` with the `HOME` directory (an
explicit `Option String` here); fall back to the literal string when the
prefix or the home directory is absent. -/
def expand_path (home : Option String) (path : String) : String :=
  match stripPre "~/" path with
  | some stripped =>
    match home with
    | some h => pathJoin h stripped
    | none => path
  | none => path
where
  /-- `PathBuf::from(base).join(rel)`: an absolute `rel` replaces the
  path; otherwise a separator is inserted unless already present. -/
  pathJoin (base rel : String) : String :=
    if strStarts rel "/" then rel
    else if strEnds base "/" then base ++ rel
    else base ++ "/" ++ rel

/-- `run_configured_command`: builds the display string, expands the
working directory, runs the worker (unless the worker task crashes,
`crash = some e`, in which case the join error becomes the `Err`), then
normalizes the captured output into a `CommandOutcome`. -/
def run_configured_command (isRoot : Bool) (home : Option String)
    (crash : Option String) (os : Invocation → SpawnResult)
    (spec : CommandConfig) : Except String CommandOutcome :=
  let command_display := commandDisplay spec
  let working_dir := spec.working_dir.map (expand_path home)
  match crash with
  | some e => .error ("指令执行线程崩溃: " ++ e)
  | none =>
    let output :=
      (run_worker isRoot os spec.program spec.args working_dir spec.env
        spec.requires_sudo).1
    .ok
      { label := spec.label
        command := command_display
        exit_code := (output.status).getD (-1)
        success := statusSuccess output.status
        stdout := strTrim output.stdout
        stderr := strTrim output.stderr }

/-! ## Controller (`execute_simple_action`, `run_maa_startup`) -/

/-- One observable side effect of the controller: a status-table update
(published on the status channel), a log push (published on the log
channel), or a `spawn_notification` call. -/
inductive Event where
  | statusUpdate (kind : SoftwareKind) (phase : SoftwarePhase)
      (message : Option String)
  | logPush (level : LogLevel) (message : String)
  | notify (text : String) (desp : String)
deriving DecidableEq, Repr

/-- `execute_simple_action` (EmulatorStart / EmulatorStop path): the
ordered transcript of effects plus the returned `Result`. The executor's
result is an input, so the theorems can condition on it exactly as the
source's `match` does. -/
def execute_simple_action (action : ActionKind) (spec : CommandConfig)
    (success_message : String)
    (execResult : Except String CommandOutcome) :
    List Event × Except String CommandOutcome :=
  let kind := action.target
  let label := spec.label
  let command_preview := commandDisplay spec
  let pre : List Event :=
    [.statusUpdate kind action.start_phase (some (label ++ " 执行中")),
     .logPush .Info ("执行 " ++ label ++ " => " ++ command_preview)]
  match execResult with
  | .ok outcome =>
    if outcome.success then
      (pre ++
        [.statusUpdate kind action.success_phase (some success_message),
         .logPush .Info (label ++ " 完成")] ++
        (if !outcome.stdout.isEmpty then
          [.logPush .Info ("[STDOUT] " ++ outcome.stdout)] else []) ++
        (if !outcome.stderr.isEmpty then
          [.logPush .Warn ("[STDERR] " ++ outcome.stderr)] else []),
       .ok outcome)
    else
      let message := label ++ " 失败, 退出码 " ++ toString outcome.exit_code
      (pre ++
        [.statusUpdate kind .Error (some message),
         .logPush .Error message,
         .logPush .Error
           (if !outcome.stdout.isEmpty then "[STDOUT] " ++ outcome.stdout
            else "[STDOUT] (无输出)"),
         .logPush .Error
           (if !outcome.stderr.isEmpty then "[STDERR] " ++ outcome.stderr
            else "[STDERR] (无输出)")],
       .error message)
  | .error err =>
    (pre ++ [.statusUpdate kind .Error (some err), .logPush .Error err],
     .error err)

/-- `run_maa_startup` (the MaaStartup command handler): transcript of
effects plus the returned `Result`, with the executor's result as an
input. `spawn_notification` calls appear as `Event.notify` (the actual
send additionally requires the `SENDKEY` environment variable inside
`spawn_notification`, which does not change the call sites modelled
here). -/
def run_maa_startup (spec : CommandConfig)
    (execResult : Except String CommandOutcome) :
    List Event × Except String CommandOutcome :=
  let label := spec.label
  let action := ActionKind.MaaStartup
  let kind := action.target
  let pre : List Event :=
    [.statusUpdate kind action.start_phase (some "准备启动MAA任务"),
     .logPush .Info ("开始执行 " ++ label),
     .notify "archMAA" "MAA服务准备启动"]
  match execResult with
  | .ok outcome =>
    if outcome.success then
      (pre ++
        [.statusUpdate kind action.success_phase (some "MAA任务已完成"),
         .logPush .Info (label ++ " 完成"),
         .notify "archMAA" "MAA运行完毕"],
       .ok outcome)
    else
      let message := label ++ " 失败, 退出码 " ++ toString outcome.exit_code
      (pre ++
        [.statusUpdate kind .Error (some message),
         .logPush .Error message],
       .error message)
  | .error err =>
    (pre ++ [.statusUpdate kind .Error (some err), .logPush .Error err],
     .error err)

/-! ## Helper lemmas -/

/-- A list is a `isPre`-prefix of itself extended by anything. -/
theorem isPre_append (l m : List Char) : isPre l (l ++ m) = true := by
  induction l with
  | nil => rfl
  | cons a as ih => simp [isPre, ih]

/-- `strip_prefix` recovers the remainder of a literal concatenation. -/
theorem stripPre_append (p s : String) : stripPre p (p ++ s) = some s := by
  unfold stripPre
  rw [String.data_append, isPre_append]
  simp

/-- `success()` holds exactly when the `unwrap_or(-1)` exit code is 0. -/
theorem statusSuccess_iff_getD (st : Option Int) :
    statusSuccess st = true ↔ st.getD (-1) = 0 := by
  cases st with
  | none => simp [statusSuccess]
  | some n => simp [statusSuccess]

/-- Trimming a string of pure whitespace yields the empty string. -/
theorem strTrim_all_whitespace (s : String)
    (h : s.data.all Char.isWhitespace = true) : strTrim s = "" := by
  unfold strTrim trimChars
  have h1 : s.data.dropWhile Char.isWhitespace = [] := by
    rw [List.dropWhile_eq_nil_iff]
    intro x hx
    exact List.all_eq_true.mp h x hx
  rw [h1]
  rfl

/-- C7 — Success flag definition: for every `CommandOutcome` produced by
`run_configured_command` (no worker crash), the `success` field is true
if and only if `exit_code` equals 0; in particular a child killed by a
signal (no exit code) yields `exit_code = -1` and `success = false`. -/
theorem C7_success_iff_exit_zero (isRoot : Bool) (home : Option String)
    (os : Invocation → SpawnResult) (spec : CommandConfig)
    (o : CommandOutcome)
    (h : run_configured_command isRoot home none os spec = .ok o) :
    o.success = true ↔ o.exit_code = 0 := by
  unfold run_configured_command at h
  simp only [Except.ok.injEq] at h
  subst h
  exact statusSuccess_iff_getD _

/-- Stub OS for witnesses: every spawn succeeds with exit 0. -/
def osAllOk : Invocation → SpawnResult :=
  fun _ => .ok { status := some 0, stdout := "out", stderr := "err" }

/-- Concrete spec for witnesses (no sudo). -/
def specPlain : CommandConfig :=
  { label := "启动模拟器", program := "podman"
    args := ["start", "maa-container"], requires_sudo := false
    working_dir := none, env := [] }

/-- The outcome `run_configured_command` produces for `specPlain` under
`osAllOk`. -/
def outcomePlain : CommandOutcome :=
  { label := "启动模拟器", command := "podman start maa-container"
    exit_code := 0, success := true, stdout := "out", stderr := "err" }

/-- C7 witness at a concrete execution. -/
theorem C7_witness : outcomePlain.success = true ↔ outcomePlain.exit_code = 0 :=
  C7_success_iff_exit_zero false none osAllOk specPlain outcomePlain (by rfl)

/-- C10 — the reported command line never reflects escalation: whatever
the privilege situation (`isRoot`, `requires_sudo`) and whatever the OS
does (so also when the child actually ran wrapped in `sudo -n` or
`pkexec`), the `command` field of the outcome is the original program
followed by its args joined with single spaces (just the program when
`args` is empty). -/
theorem C10_command_never_escalated (isRoot : Bool) (home : Option String)
    (os : Invocation → SpawnResult) (spec : CommandConfig)
    (o : CommandOutcome)
    (h : run_configured_command isRoot home none os spec = .ok o) :
    o.command = (if spec.args.isEmpty then spec.program
                 else spec.program ++ " " ++ joinSpace spec.args) := by
  unfold run_configured_command at h
  simp only [Except.ok.injEq] at h
  subst h
  rfl

/-- Stub OS for the escalation witness: `sudo -n` fails asking for a
password, anything else (in particular `pkexec`) succeeds. -/
def osPassword : Invocation → SpawnResult := fun inv =>
  if inv.program = "sudo" then
    .ok { status := some 1, stdout := ""
          stderr := "sudo: a password is required" }
  else
    .ok { status := some 0, stdout := "pk done", stderr := "" }

/-- Concrete spec requiring sudo, for the escalation witnesses. -/
def specSudo : CommandConfig :=
  { label := "启动模拟器", program := "podman"
    args := ["start", "maa-container"], requires_sudo := true
    working_dir := some "~/work", env := [("LANG", "C")] }

/-- The outcome `run_configured_command` produces for `specSudo` under
`osPassword` for a non-root caller: the pkexec stage's result, with the
unwrapped command line. -/
def outcomePk : CommandOutcome :=
  { label := "启动模拟器", command := "podman start maa-container"
    exit_code := 0, success := true, stdout := "pk done", stderr := "" }

/-- C10 witness: even under a real escalation (sudo fails with a
password prompt, pkexec runs), the command line is the unwrapped one. -/
theorem C10_witness :
    outcomePk.command =
      (if (["start", "maa-container"] : List String).isEmpty then "podman"
       else "podman" ++ " " ++ joinSpace ["start", "maa-container"]) :=
  C10_command_never_escalated false none osPassword specSudo outcomePk
    (by rfl)

/-- C8 — working-directory expansion is best-effort and total: a string
not starting with the `~/` shorthand passes through unchanged; when the
home directory cannot be determined the literal string is used; when the
shorthand and the home directory are both present, the result is the
home directory joined with the remainder (which, in the ordinary case of
a relative remainder and a home without trailing separator, is exactly
`home ++ "/" ++ remainder`). The function is total, so expansion never
fails the call. -/
theorem C8_expand_path (home : Option String) (path : String) :
    (strStarts path "~/" = false → expand_path home path = path) ∧
    (expand_path none path = path) ∧
    (∀ h rest, path = "~/" ++ rest →
      expand_path (some h) path = expand_path.pathJoin h rest) ∧
    (∀ h rest, path = "~/" ++ rest → strStarts rest "/" = false →
      strEnds h "/" = false →
      expand_path (some h) path = h ++ "/" ++ rest) := by
  refine ⟨?_, ?_, ?_, ?_⟩
  · intro hs
    unfold expand_path stripPre
    have hp : isPre "~/".data path.data = false := hs
    rw [hp]
    rfl
  · unfold expand_path
    cases stripPre "~/" path <;> rfl
  · intro h rest hp
    subst hp
    unfold expand_path
    rw [stripPre_append]
  · intro h rest hp hrel hsep
    subst hp
    unfold expand_path
    rw [stripPre_append]
    simp [expand_path.pathJoin, hrel, hsep]

/-- C8 witness at concrete inputs: `~/work` expands against home
`/home/user`, is left alone without a home, and `/tmp` passes through. -/
theorem C8_witness :
    expand_path (some "/home/user") "~/work" = "/home/user" ++ "/" ++ "work" ∧
    expand_path none "~/work" = "~/work" ∧
    expand_path (some "/home/user") "/tmp" = "/tmp" :=
  ⟨(C8_expand_path (some "/home/user") "~/work").2.2.2 "/home/user" "work"
      (by decide) (by decide) (by decide),
   (C8_expand_path none "~/work").2.1,
   (C8_expand_path (some "/home/user") "/tmp").1 (by decide)⟩

/-- C5 — StatusTable update postcondition: after
`update_status now statuses kind phase message` the map holds, at
`kind`, exactly the returned snapshot; its phase is the given phase, its
timestamp is refreshed to `now`, its `last_message` is `message`'s value
when supplied and otherwise the pre-call message (`none` when the entry
was freshly created from the `Unknown` default); every other kind's
entry is untouched. -/
theorem C5_update_status (now : Nat) (statuses : StatusMap)
    (kind : SoftwareKind) (phase : SoftwarePhase) (message : Option String) :
    (update_status now statuses kind phase message).1 kind =
      some (update_status now statuses kind phase message).2 ∧
    (update_status now statuses kind phase message).2.phase = phase ∧
    (update_status now statuses kind phase message).2.last_updated_ms = now ∧
    (update_status now statuses kind phase message).2.last_message =
      (match message with
       | some msg => some msg
       | none =>
         match statuses kind with
         | some old => old.last_message
         | none => none) ∧
    (∀ k, k ≠ kind →
      (update_status now statuses kind phase message).1 k = statuses k) := by
  refine ⟨?_, rfl, rfl, ?_, ?_⟩
  · simp [update_status]
  · cases message with
    | some msg => rfl
    | none =>
      cases hk : statuses kind with
      | some old => simp [update_status, hk]
      | none => simp [update_status, hk, with_phase]
  · intro k hk
    simp [update_status, hk]

/-- C5 witness: updating the Emulator entry of the empty table neither
creates nor touches the Maa entry, and the snapshot carries the given
phase, message and timestamp. -/
theorem C5_witness :
    (update_status 5 (fun _ => none) .Emulator .Running (some "up")).1
        .Maa = (fun _ => none : StatusMap) .Maa ∧
    (update_status 5 (fun _ => none) .Emulator .Running
        (some "up")).2.phase = .Running ∧
    (update_status 5 (fun _ => none) .Emulator .Running
        (some "up")).2.last_updated_ms = 5 :=
  ⟨(C5_update_status 5 (fun _ => none) .Emulator .Running
      (some "up")).2.2.2.2 .Maa (by decide),
   (C5_update_status 5 (fun _ => none) .Emulator .Running (some "up")).2.1,
   (C5_update_status 5 (fun _ => none) .Emulator .Running
      (some "up")).2.2.1⟩

/-- The invocation of the Direct state: the program itself. -/
def directInv (program : String) (args : List String)
    (workingDir : Option String) (envVars : List (String × String)) :
    Invocation :=
  { program := program, args := args, workingDir := workingDir
    env := envVars }

/-- The stage-1 invocation: `sudo -n <program> <args...>`. -/
def sudoInv (program : String) (args : List String)
    (workingDir : Option String) (envVars : List (String × String)) :
    Invocation :=
  { program := "sudo", args := "-n" :: program :: args
    workingDir := workingDir, env := envVars }

/-- The stage-2 invocation: `pkexec <program> <args...>`. -/
def pkexecInv (program : String) (args : List String)
    (workingDir : Option String) (envVars : List (String × String)) :
    Invocation :=
  { program := "pkexec", args := program :: args
    workingDir := workingDir, env := envVars }

/-- The trigger for stage 2: stage 1 failed and its stderr carries a
password-required marker. -/
def passwordMarker (out : Output) : Bool :=
  !statusSuccess out.status &&
    (strContains out.stderr "password" ||
     strContains out.stderr "a password is required")

/-- C6 — spawn failure is never a hard error: without a worker crash the
executor always returns `Ok`; the `Err` variant is produced exactly by a
worker crash (with the crash text); and when the direct child cannot be
spawned, the returned outcome is the synthetic failure — exit code 1
(the status of the `false` utility), `success = false`, empty stdout and
a descriptive stderr. -/
theorem C6_spawn_failure_synthetic (isRoot : Bool) (home : Option String)
    (os : Invocation → SpawnResult) (spec : CommandConfig) (e msg : String) :
    (∃ o, run_configured_command isRoot home none os spec = .ok o) ∧
    run_configured_command isRoot home (some e) os spec =
      .error ("指令执行线程崩溃: " ++ e) ∧
    ((spec.requires_sudo = false ∨ isRoot = true) →
      os (directInv spec.program spec.args
            (spec.working_dir.map (expand_path home)) spec.env) =
        .spawnErr msg →
      run_configured_command isRoot home none os spec = .ok
        { label := spec.label
          command := commandDisplay spec
          exit_code := 1
          success := false
          stdout := ""
          stderr := strTrim ("Failed to execute command: " ++ msg) }) := by
  refine ⟨⟨_, rfl⟩, rfl, ?_⟩
  intro hdir hos
  have hcond : (spec.requires_sudo && !isRoot) = false := by
    rcases hdir with h1 | h1 <;> simp [h1]
  unfold run_configured_command run_worker
  rw [hcond]
  unfold directInv at hos
  simp [execute_command_internal, hos, statusSuccess]
  rfl

/-- Stub OS where every spawn fails. -/
def osSpawnFail : Invocation → SpawnResult :=
  fun _ => .spawnErr "No such file or directory (os error 2)"

/-- C6 witness: a concrete spawn failure yields `Ok` with the synthetic
failed outcome. -/
theorem C6_witness :
    run_configured_command false none none osSpawnFail specPlain = .ok
      { label := specPlain.label
        command := commandDisplay specPlain
        exit_code := 1
        success := false
        stdout := ""
        stderr :=
          strTrim ("Failed to execute command: " ++
            "No such file or directory (os error 2)") } :=
  (C6_spawn_failure_synthetic false none osSpawnFail specPlain "x"
      "No such file or directory (os error 2)").2.2
    (Or.inl rfl) rfl

/-- C1 — privilege-escalation state machine: with `requires_sudo` off or
a root caller, the program is invoked directly exactly once; otherwise
stage 1 is `sudo -n program args`, and the result is stage 2 (`pkexec
program args`) exactly when stage 1 failed with a password marker in its
stderr, in which case both invocations happened in order and stage 2's
output is returned regardless of its content; in every other case stage
1's output is returned and `pkexec` is invoked zero times, while `sudo`
is invoked exactly once. -/
theorem C1_escalation_state_machine (isRoot : Bool)
    (os : Invocation → SpawnResult) (program : String) (args : List String)
    (workingDir : Option String) (envVars : List (String × String))
    (requiresSudo : Bool) :
    ((requiresSudo = false ∨ isRoot = true) →
      run_worker isRoot os program args workingDir envVars requiresSudo =
        (execute_command_internal os
           (directInv program args workingDir envVars),
         [directInv program args workingDir envVars])) ∧
    (requiresSudo = true → isRoot = false →
      run_worker isRoot os program args workingDir envVars requiresSudo =
        (if passwordMarker (execute_command_internal os
              (sudoInv program args workingDir envVars)) = true then
          (execute_command_internal os
             (pkexecInv program args workingDir envVars),
           [sudoInv program args workingDir envVars,
            pkexecInv program args workingDir envVars])
         else
          (execute_command_internal os
             (sudoInv program args workingDir envVars),
           [sudoInv program args workingDir envVars])) ∧
      (run_worker isRoot os program args workingDir envVars
          requiresSudo).2.countP (fun i => i.program == "pkexec") =
        (if passwordMarker (execute_command_internal os
              (sudoInv program args workingDir envVars)) = true
         then 1 else 0) ∧
      (run_worker isRoot os program args workingDir envVars
          requiresSudo).2.countP (fun i => i.program == "sudo") = 1) := by
  constructor
  · intro hdir
    have hcond : (requiresSudo && !isRoot) = false := by
      rcases hdir with h1 | h1 <;> simp [h1]
    unfold run_worker
    rw [hcond]
    rfl
  · intro hrs hir
    subst hrs; subst hir
    by_cases hm : passwordMarker (execute_command_internal os
        (sudoInv program args workingDir envVars)) = true
    · unfold passwordMarker sudoInv at hm
      simp [run_worker, hm, passwordMarker, sudoInv, pkexecInv,
        List.countP, List.countP.go]
    · unfold passwordMarker sudoInv at hm
      rw [Bool.not_eq_true] at hm
      simp [run_worker, hm, passwordMarker, sudoInv, pkexecInv,
        List.countP, List.countP.go]

/-- C1 witness: replay of the spec's escalation scenario — sudo stub
fails asking for a password, so `pkexec` is invoked exactly once; with
sudo succeeding (osAllOk) `pkexec` is never invoked. -/
theorem C1_witness :
    (run_worker false osPassword "podman" ["start"] none [] true).2.countP
      (fun i => i.program == "pkexec") = 1 ∧
    (run_worker false osAllOk "podman" ["start"] none [] true).2.countP
      (fun i => i.program == "pkexec") = 0 := by
  constructor
  · rw [((C1_escalation_state_machine false osPassword "podman" ["start"]
        none [] true).2 rfl rfl).2.1]
    decide
  · rw [((C1_escalation_state_machine false osAllOk "podman" ["start"]
        none [] true).2 rfl rfl).2.1]
    decide

/-- One push on a buffer that is the 200-entry tail of its push history
yields the 200-entry tail of the extended history. -/
theorem push_log_drop (es : List LogEntry) (e : LogEntry) :
    push_log (es.drop (es.length - MAX_MEMORY_LOGS)) e =
      (es ++ [e]).drop ((es ++ [e]).length - MAX_MEMORY_LOGS) := by
  simp only [push_log, MAX_MEMORY_LOGS]
  rcases Nat.lt_or_ge es.length 200 with hn | hn
  · have h0 : es.length - 200 = 0 := by omega
    rw [h0, List.drop_zero]
    have h1 : (es ++ [e]).length - 200 = 0 := by
      simp only [List.length_append, List.length_singleton]
      omega
    rw [h1, List.drop_zero]
    have h2 : ¬ (es ++ [e]).length > 200 := by
      simp only [List.length_append, List.length_singleton]
      omega
    rw [if_neg h2]
  · have hgt : (es.drop (es.length - 200) ++ [e]).length > 200 := by
      simp only [List.length_append, List.length_drop,
        List.length_singleton]
      omega
    rw [if_pos hgt]
    have hle : (1 : Nat) ≤ (es.drop (es.length - 200)).length := by
      rw [List.length_drop]; omega
    rw [List.drop_append_of_le_length hle, List.drop_drop]
    have hle2 : (es ++ [e]).length - 200 ≤ es.length := by
      simp only [List.length_append, List.length_singleton]
      omega
    rw [List.drop_append_of_le_length hle2]
    have hidx : es.length - 200 + 1 = (es ++ [e]).length - 200 := by
      simp only [List.length_append, List.length_singleton]
      omega
    rw [hidx]

/-- C4 — LogBuffer bound and FIFO eviction: after any sequence of pushes
starting from the empty buffer, the buffer is exactly the suffix of the
push history consisting of its most recent `MAX_MEMORY_LOGS = 200`
entries in original insertion order (so only eviction of the oldest ever
removes an entry), and its length never exceeds 200. -/
theorem C4_log_buffer_fifo (entries : List LogEntry) :
    log_buffer entries =
      entries.drop (entries.length - MAX_MEMORY_LOGS) ∧
    (log_buffer entries).length ≤ MAX_MEMORY_LOGS := by
  have main : log_buffer entries =
      entries.drop (entries.length - MAX_MEMORY_LOGS) := by
    induction entries using List.reverseRecOn with
    | nil => rfl
    | append_singleton es e ih =>
      unfold log_buffer at ih ⊢
      rw [List.foldl_append, List.foldl_cons, List.foldl_nil, ih,
        push_log_drop]
  refine ⟨main, ?_⟩
  rw [main, List.length_drop]
  unfold MAX_MEMORY_LOGS
  omega

/-- The empty string is `isEmpty`. -/
theorem isEmpty_empty_str : ("" : String).isEmpty = true := rfl

/-- A non-empty string is not `isEmpty`. -/
theorem isEmpty_eq_false_of_ne (s : String) (h : s ≠ "") :
    s.isEmpty = false := by
  cases hb : s.isEmpty
  · rfl
  · exact absurd ((String.isEmpty_iff s).mp hb) h

/-- Recognizer for `spawn_notification` call events. -/
def isNotifyEvent : Event → Bool
  | .notify _ _ => true
  | _ => false

/-- The MAA command spec with its hard-coded defaults, for concrete
transcripts. -/
def specMaa : CommandConfig :=
  { label := "MAA 启动", program := "maa", args := ["startup", "Official"]
    requires_sudo := false, working_dir := none, env := [] }

/-- A failed MAA outcome whose streams are both empty. -/
def outcomeFailEmpty : CommandOutcome :=
  { label := "MAA 启动", command := "maa startup Official"
    exit_code := 1, success := false, stdout := "", stderr := "" }

/-- A successful MAA outcome with non-empty stdout. -/
def outcomeOkStdout : CommandOutcome :=
  { label := "MAA 启动", command := "maa startup Official"
    exit_code := 0, success := true, stdout := "hello", stderr := "" }

/-- C2 counterexample — the claim demands an STDOUT and an STDERR
section at Error level on every action's failure path, but on a concrete
failed MaaStartup outcome the transcript contains no log entry
mentioning either section (in particular no "(no output)" placeholder
entry). -/
theorem C2_counterexample :
    outcomeFailEmpty.success = false ∧
    (run_maa_startup specMaa (.ok outcomeFailEmpty)).1.countP
      (fun ev => match ev with
        | .logPush _ m =>
          strContains m "[STDOUT]" || strContains m "[STDERR]"
        | _ => false) = 0 := by
  decide

/-- C2 amended — failure trail: for actions handled by
`execute_simple_action` (EmulatorStart, EmulatorStop), an `Ok` outcome
with `success = false` produces the Error status update and Error log of
"<label> 失败, 退出码 <code>", an `[STDOUT]` and an `[STDERR]` Error log
(with the `(无输出)` placeholder exactly when the respective stream is
empty), and the failure signal carrying the message; for MaaStartup the
failure path produces only the Error status update, the Error log of the
message and the failure signal — no stream sections. -/
theorem C2_failure_trail (spec : CommandConfig) (sm : String)
    (action : ActionKind) (outcome : CommandOutcome)
    (hfail : outcome.success = false) :
    (Event.statusUpdate action.target .Error
        (some (spec.label ++ " 失败, 退出码 " ++ toString outcome.exit_code)) ∈
          (execute_simple_action action spec sm (.ok outcome)).1 ∧
      Event.logPush .Error
        (spec.label ++ " 失败, 退出码 " ++ toString outcome.exit_code) ∈
          (execute_simple_action action spec sm (.ok outcome)).1 ∧
      (outcome.stdout = "" → Event.logPush .Error "[STDOUT] (无输出)" ∈
          (execute_simple_action action spec sm (.ok outcome)).1) ∧
      (outcome.stdout ≠ "" →
        Event.logPush .Error ("[STDOUT] " ++ outcome.stdout) ∈
          (execute_simple_action action spec sm (.ok outcome)).1) ∧
      (outcome.stderr = "" → Event.logPush .Error "[STDERR] (无输出)" ∈
          (execute_simple_action action spec sm (.ok outcome)).1) ∧
      (outcome.stderr ≠ "" →
        Event.logPush .Error ("[STDERR] " ++ outcome.stderr) ∈
          (execute_simple_action action spec sm (.ok outcome)).1) ∧
      (execute_simple_action action spec sm (.ok outcome)).2 =
        .error (spec.label ++ " 失败, 退出码 " ++
          toString outcome.exit_code)) ∧
    run_maa_startup spec (.ok outcome) =
      ([.statusUpdate .Maa .Running (some "准备启动MAA任务"),
        .logPush .Info ("开始执行 " ++ spec.label),
        .notify "archMAA" "MAA服务准备启动",
        .statusUpdate .Maa .Error
          (some (spec.label ++ " 失败, 退出码 " ++
            toString outcome.exit_code)),
        .logPush .Error
          (spec.label ++ " 失败, 退出码 " ++ toString outcome.exit_code)],
       .error (spec.label ++ " 失败, 退出码 " ++
         toString outcome.exit_code)) := by
  refine ⟨⟨?_, ?_, ?_, ?_, ?_, ?_, ?_⟩, ?_⟩
  · simp [execute_simple_action, hfail]
  · simp [execute_simple_action, hfail]
  · intro hs
    simp [execute_simple_action, hfail, hs, isEmpty_empty_str]
  · intro hs
    simp [execute_simple_action, hfail, isEmpty_eq_false_of_ne _ hs]
  · intro hs
    simp [execute_simple_action, hfail, hs, isEmpty_empty_str]
  · intro hs
    simp [execute_simple_action, hfail, isEmpty_eq_false_of_ne _ hs]
  · simp [execute_simple_action, hfail]
  · simp [run_maa_startup, hfail, ActionKind.target, ActionKind.start_phase]

/-- C2 witness: a concrete EmulatorStop failure with empty streams gets
both placeholders. -/
theorem C2_witness :
    Event.logPush .Error "[STDOUT] (无输出)" ∈
      (execute_simple_action .EmulatorStop specPlain "模拟器已关闭"
        (.ok outcomeFailEmpty)).1 ∧
    Event.logPush .Error "[STDERR] (无输出)" ∈
      (execute_simple_action .EmulatorStop specPlain "模拟器已关闭"
        (.ok outcomeFailEmpty)).1 :=
  ⟨(C2_failure_trail specPlain "模拟器已关闭" .EmulatorStop outcomeFailEmpty
      rfl).1.2.2.1 rfl,
   (C2_failure_trail specPlain "模拟器已关闭" .EmulatorStop outcomeFailEmpty
      rfl).1.2.2.2.2.1 rfl⟩

/-- C3 counterexample — the claim says a successful outcome's non-empty
stdout is logged at Info for every action, but on a concrete successful
MaaStartup outcome with stdout "hello" no log entry mentions that output
at all. -/
theorem C3_counterexample :
    outcomeOkStdout.success = true ∧
    outcomeOkStdout.stdout ≠ "" ∧
    (run_maa_startup specMaa (.ok outcomeOkStdout)).1.countP
      (fun ev => match ev with
        | .logPush _ m => strContains m "hello"
        | _ => false) = 0 := by
  decide

/-- C3 amended — success sequence: for actions handled by
`execute_simple_action` (EmulatorStart, EmulatorStop), a successful
outcome produces the success status update, the completion log, the
outcome's stdout at Info exactly when non-empty and its stderr at Warn
exactly when non-empty, the outcome is returned, and no notification is
ever fired; for MaaStartup the success path updates the status to the
success phase, logs completion, fires the external notification (at
start and on success — never the captured streams), and returns the
outcome. -/
theorem C3_success_sequence (spec : CommandConfig) (sm : String)
    (action : ActionKind) (outcome : CommandOutcome)
    (hok : outcome.success = true) :
    execute_simple_action action spec sm (.ok outcome) =
      ([.statusUpdate action.target action.start_phase
          (some (spec.label ++ " 执行中")),
        .logPush .Info ("执行 " ++ spec.label ++ " => " ++
          commandDisplay spec),
        .statusUpdate action.target action.success_phase (some sm),
        .logPush .Info (spec.label ++ " 完成")] ++
       (if outcome.stdout = "" then []
        else [.logPush .Info ("[STDOUT] " ++ outcome.stdout)]) ++
       (if outcome.stderr = "" then []
        else [.logPush .Warn ("[STDERR] " ++ outcome.stderr)]),
       .ok outcome) ∧
    (execute_simple_action action spec sm
        (.ok outcome)).1.countP isNotifyEvent = 0 ∧
    run_maa_startup spec (.ok outcome) =
      ([.statusUpdate .Maa .Running (some "准备启动MAA任务"),
        .logPush .Info ("开始执行 " ++ spec.label),
        .notify "archMAA" "MAA服务准备启动",
        .statusUpdate .Maa .Idle (some "MAA任务已完成"),
        .logPush .Info (spec.label ++ " 完成"),
        .notify "archMAA" "MAA运行完毕"],
       .ok outcome) ∧
    (run_maa_startup spec (.ok outcome)).1.countP isNotifyEvent = 2 := by
  have hmain : execute_simple_action action spec sm (.ok outcome) =
      ([.statusUpdate action.target action.start_phase
          (some (spec.label ++ " 执行中")),
        .logPush .Info ("执行 " ++ spec.label ++ " => " ++
          commandDisplay spec),
        .statusUpdate action.target action.success_phase (some sm),
        .logPush .Info (spec.label ++ " 完成")] ++
       (if outcome.stdout = "" then []
        else [.logPush .Info ("[STDOUT] " ++ outcome.stdout)]) ++
       (if outcome.stderr = "" then []
        else [.logPush .Warn ("[STDERR] " ++ outcome.stderr)]),
       .ok outcome) := by
    by_cases hs : outcome.stdout = "" <;>
      by_cases ht : outcome.stderr = "" <;>
      simp [execute_simple_action, hok, hs, ht,
        isEmpty_eq_false_of_ne, isEmpty_empty_str]
  refine ⟨hmain, ?_, ?_, ?_⟩
  · rw [hmain]
    by_cases hs : outcome.stdout = "" <;>
      by_cases ht : outcome.stderr = "" <;>
      simp [hs, ht, List.countP, List.countP.go, isNotifyEvent]
  · simp [run_maa_startup, hok, ActionKind.target, ActionKind.start_phase,
      ActionKind.success_phase]
  · simp [run_maa_startup, hok, List.countP, List.countP.go, isNotifyEvent,
      ActionKind.target, ActionKind.start_phase, ActionKind.success_phase]

/-- C3 witness: a concrete successful EmulatorStart with empty stderr
logs stdout at Info, no STDERR entry, no notification; the MAA success
transcript carries exactly two notification calls. -/
theorem C3_witness :
    execute_simple_action .EmulatorStart specPlain "模拟器已启动"
        (.ok outcomeOkStdout) =
      ([.statusUpdate .Emulator .Starting (some ("启动模拟器" ++ " 执行中")),
        .logPush .Info ("执行 " ++ "启动模拟器" ++ " => " ++
          commandDisplay specPlain),
        .statusUpdate .Emulator .Running (some "模拟器已启动"),
        .logPush .Info ("启动模拟器" ++ " 完成")] ++
       [.logPush .Info ("[STDOUT] " ++ "hello")] ++ [],
       .ok outcomeOkStdout) ∧
    (run_maa_startup specPlain
        (.ok outcomeOkStdout)).1.countP isNotifyEvent = 2 := by
  have h := C3_success_sequence specPlain "模拟器已启动" .EmulatorStart
    outcomeOkStdout rfl
  refine ⟨?_, h.2.2.2⟩
  rw [h.1]
  rfl

/-- Controller behavior on an outcome with empty streams: no stream
logs on the success path, placeholders on the failure path. -/
theorem controller_empty_streams (spec : CommandConfig)
    (o : CommandOutcome) (hs : o.stdout = "") (ht : o.stderr = "")
    (action : ActionKind) (sm : String) :
    (o.success = true →
      (execute_simple_action action spec sm (.ok o)).1 =
        [.statusUpdate action.target action.start_phase
           (some (spec.label ++ " 执行中")),
         .logPush .Info ("执行 " ++ spec.label ++ " => " ++
           commandDisplay spec),
         .statusUpdate action.target action.success_phase (some sm),
         .logPush .Info (spec.label ++ " 完成")]) ∧
    (o.success = false →
      Event.logPush .Error "[STDOUT] (无输出)" ∈
        (execute_simple_action action spec sm (.ok o)).1 ∧
      Event.logPush .Error "[STDERR] (无输出)" ∈
        (execute_simple_action action spec sm (.ok o)).1) := by
  constructor
  · intro hok
    simp [execute_simple_action, hok, hs, ht, isEmpty_empty_str]
  · intro hfail
    constructor
    · simp [execute_simple_action, hfail, hs, isEmpty_empty_str]
    · simp [execute_simple_action, hfail, ht, isEmpty_empty_str]

/-- C9 — implicit claim: captured output is whitespace-trimmed. The
outcome's streams are the worker's captured streams after trimming; a
child that prints only whitespace therefore yields empty streams, which
on the success path of `execute_simple_action` produce no stream logs at
all, and on the failure path produce the `(无输出)` placeholders. -/
theorem C9_output_trimmed (isRoot : Bool) (home : Option String)
    (os : Invocation → SpawnResult) (spec : CommandConfig)
    (o : CommandOutcome)
    (h : run_configured_command isRoot home none os spec = .ok o) :
    o.stdout = strTrim (run_worker isRoot os spec.program spec.args
      (spec.working_dir.map (expand_path home)) spec.env
      spec.requires_sudo).1.stdout ∧
    o.stderr = strTrim (run_worker isRoot os spec.program spec.args
      (spec.working_dir.map (expand_path home)) spec.env
      spec.requires_sudo).1.stderr ∧
    ((run_worker isRoot os spec.program spec.args
        (spec.working_dir.map (expand_path home)) spec.env
        spec.requires_sudo).1.stdout.data.all Char.isWhitespace = true →
      o.stdout = "") ∧
    ((run_worker isRoot os spec.program spec.args
        (spec.working_dir.map (expand_path home)) spec.env
        spec.requires_sudo).1.stderr.data.all Char.isWhitespace = true →
      o.stderr = "") ∧
    (o.stdout = "" → o.stderr = "" → ∀ action sm,
      (o.success = true →
        (execute_simple_action action spec sm (.ok o)).1 =
          [.statusUpdate action.target action.start_phase
             (some (spec.label ++ " 执行中")),
           .logPush .Info ("执行 " ++ spec.label ++ " => " ++
             commandDisplay spec),
           .statusUpdate action.target action.success_phase (some sm),
           .logPush .Info (spec.label ++ " 完成")]) ∧
      (o.success = false →
        Event.logPush .Error "[STDOUT] (无输出)" ∈
          (execute_simple_action action spec sm (.ok o)).1 ∧
        Event.logPush .Error "[STDERR] (无输出)" ∈
          (execute_simple_action action spec sm (.ok o)).1)) := by
  unfold run_configured_command at h
  simp only [Except.ok.injEq] at h
  subst h
  refine ⟨rfl, rfl, ?_, ?_, ?_⟩
  · intro hw
    exact strTrim_all_whitespace _ hw
  · intro hw
    exact strTrim_all_whitespace _ hw
  · intro hs ht action sm
    exact controller_empty_streams spec _ hs ht action sm

/-- OS stub whose child emits only whitespace and fails. -/
def osWhitespace : Invocation → SpawnResult :=
  fun _ => .ok { status := some 1, stdout := "\n", stderr := "\t " }

/-- The outcome of `specPlain` under `osWhitespace`: trimmed-away
streams, failed. -/
def outcomeWs : CommandOutcome :=
  { label := "启动模拟器", command := "podman start maa-container"
    exit_code := 1, success := false, stdout := "", stderr := "" }

/-- C9 witness: a child emitting a lone newline and a tab-space stderr
yields empty trimmed streams, and the failure path then logs both
placeholders. -/
theorem C9_witness :
    Event.logPush .Error "[STDOUT] (无输出)" ∈
      (execute_simple_action .EmulatorStart specPlain "模拟器已启动"
        (.ok outcomeWs)).1 ∧
    Event.logPush .Error "[STDERR] (无输出)" ∈
      (execute_simple_action .EmulatorStart specPlain "模拟器已启动"
        (.ok outcomeWs)).1 :=
  ((C9_output_trimmed false none osWhitespace specPlain outcomeWs
      (by rfl)).2.2.2.2 rfl rfl .EmulatorStart "模拟器已启动").2 rfl

end EasyMaa
